import Mathlib

/-!
Verification of the synthetic skip-prediction dataset generator
(`generate_dataset.py`) and its sequence-dataset consumer
(`sequence_dataset.py`).

The Python source is shallowly embedded: pandas tables become lists of
structures, the numpy generator becomes an abstract stream of draws consumed
at explicit offsets, and Python floats become exact rationals.
-/

/-- One enriched (fully joined) event row, restricted to the fields read by
`compute_skip_probability`.  String fields model the pandas object columns;
`energy` and `danceability` are the track audio features. -/
structure EventRow where
  skip_tendency : String
  age_group : String
  subscription : String
  country : String
  time_of_day : String
  location : String
  day_type : String
  genre : String
  energy : ℚ
  danceability : ℚ
deriving Repr, DecidableEq

/-- Models `if row["skip_tendency"] == "high": p += 0.25 elif ... == "medium": p += 0.10`. -/
def tendencyDelta (r : EventRow) : ℚ :=
  if r.skip_tendency = "high" then 25/100
  else if r.skip_tendency = "medium" then 10/100
  else 0

/-- Models `if row["age_group"] in ["13-17", "18-24"]: p += 0.05`. -/
def ageDelta (r : EventRow) : ℚ :=
  if r.age_group = "13-17" ∨ r.age_group = "18-24" then 5/100 else 0

/-- Models `if row["subscription"] == "free": p += 0.10`. -/
def subDelta (r : EventRow) : ℚ :=
  if r.subscription = "free" then 10/100 else 0

/-- Models `if row["country"] == "LATAM": p += 0.08`. -/
def latamDelta (r : EventRow) : ℚ :=
  if r.country = "LATAM" then 8/100 else 0

/-- Models `if row["country"] == "EU_UK": p -= 0.05`. -/
def euDelta (r : EventRow) : ℚ :=
  if r.country = "EU_UK" then -(5/100) else 0

/-- Models `if row["time_of_day"] == "morning": p -= 0.05`. -/
def morningDelta (r : EventRow) : ℚ :=
  if r.time_of_day = "morning" then -(5/100) else 0

/-- Models `if row["location"] == "gym": p += 0.10`. -/
def gymDelta (r : EventRow) : ℚ :=
  if r.location = "gym" then 10/100 else 0

/-- Models `if row["day_type"] == "weekend": p += 0.05`. -/
def weekendDelta (r : EventRow) : ℚ :=
  if r.day_type = "weekend" then 5/100 else 0

/-- Models `if row["genre"] in ["pop", "latin"]: p -= 0.05`. -/
def genreNegDelta (r : EventRow) : ℚ :=
  if r.genre = "pop" ∨ r.genre = "latin" then -(5/100) else 0

/-- Models `if row["genre"] in ["classical", "jazz"]: p += 0.10`. -/
def genrePosDelta (r : EventRow) : ℚ :=
  if r.genre = "classical" ∨ r.genre = "jazz" then 10/100 else 0

/-- Models `if row["energy"] < 0.3: p += 0.05`. -/
def energyDelta (r : EventRow) : ℚ :=
  if r.energy < 3/10 then 5/100 else 0

/-- Models `if row["danceability"] > 0.7: p -= 0.05`. -/
def danceDelta (r : EventRow) : ℚ :=
  if r.danceability > 7/10 then -(5/100) else 0

/-- The accumulated value of `p` in `compute_skip_probability` just before the
final clamp: baseline `0.25` plus every conditional adjustment.  All the
adjustments in the source are additive, so the sequential `p += ...` chain is
this sum. -/
def skipProbRaw (r : EventRow) : ℚ :=
  25/100 + tendencyDelta r + ageDelta r + subDelta r + latamDelta r + euDelta r
    + morningDelta r + gymDelta r + weekendDelta r + genreNegDelta r
    + genrePosDelta r + energyDelta r + danceDelta r

/-- Models `compute_skip_probability` from `generate_dataset.py`: the accumulated sum
followed by `return max(0, min(1, p))`. -/
def compute_skip_probability (r : EventRow) : ℚ :=
  max 0 (min 1 (skipProbRaw r))

/-- The reference additive rule table as written in the specification
(section 4.6): baseline 0.25, the thirteen gated adjustments of the table,
and a final clamp of the raw sum to the closed interval [0,1].  Written
directly from the spec's table, to be compared with
`compute_skip_probability`. -/
def specSkipProbability (r : EventRow) : ℚ :=
  max 0 (min 1 (25/100
    + (if r.skip_tendency = "high" then 25/100
       else if r.skip_tendency = "medium" then 10/100 else 0)
    + (if r.age_group = "13-17" ∨ r.age_group = "18-24" then 5/100 else 0)
    + (if r.subscription = "free" then 10/100 else 0)
    + (if r.country = "LATAM" then 8/100 else 0)
    + (if r.country = "EU_UK" then -(5/100) else 0)
    + (if r.time_of_day = "morning" then -(5/100) else 0)
    + (if r.location = "gym" then 10/100 else 0)
    + (if r.day_type = "weekend" then 5/100 else 0)
    + (if r.genre = "pop" ∨ r.genre = "latin" then -(5/100) else 0)
    + (if r.genre = "classical" ∨ r.genre = "jazz" then 10/100 else 0)
    + (if r.energy < 3/10 then 5/100 else 0)
    + (if r.danceability > 7/10 then -(5/100) else 0)))

/-- C1: `compute_skip_probability` agrees with the spec's reference additive
rule table on every enriched event row. -/
theorem compute_skip_probability_eq_spec_table (r : EventRow) :
    compute_skip_probability r = specSkipProbability r := by
  rfl

/-- C2: for every possible input row — arbitrary strings in every categorical
field and arbitrary rational `energy` and `danceability` — the computed skip
probability lies in the closed interval [0,1]. -/
theorem compute_skip_probability_mem_unit_interval (r : EventRow) :
    0 ≤ compute_skip_probability r ∧ compute_skip_probability r ≤ 1 := by
  unfold compute_skip_probability
  exact ⟨le_max_left 0 _, max_le (by norm_num) (min_le_left 1 _)⟩

/-- The final clamp `max(0, min(1, ·))` is monotone. -/
theorem clamp01_mono {a b : ℚ} (h : a ≤ b) :
    max 0 (min 1 a) ≤ max 0 (min 1 b) :=
  max_le_max le_rfl (min_le_min le_rfl h)

/-- Raising `skip_tendency` from low to medium adds exactly 0.10 to the raw sum. -/
theorem skipProbRaw_medium (r : EventRow) :
    skipProbRaw {r with skip_tendency := "medium"} =
      skipProbRaw {r with skip_tendency := "low"} + 10/100 := by
  simp [skipProbRaw, tendencyDelta, ageDelta, subDelta, latamDelta, euDelta,
    morningDelta, gymDelta, weekendDelta, genreNegDelta, genrePosDelta,
    energyDelta, danceDelta]
  ring

/-- Raising `skip_tendency` from low to high adds exactly 0.25 to the raw sum. -/
theorem skipProbRaw_high (r : EventRow) :
    skipProbRaw {r with skip_tendency := "high"} =
      skipProbRaw {r with skip_tendency := "low"} + 25/100 := by
  simp [skipProbRaw, tendencyDelta, ageDelta, subDelta, latamDelta, euDelta,
    morningDelta, gymDelta, weekendDelta, genreNegDelta, genrePosDelta,
    energyDelta, danceDelta]
  ring

/-- C7: holding every other field fixed, the computed skip probability is
non-decreasing as `skip_tendency` goes low → medium → high. -/
theorem skip_prob_monotone_in_tendency (r : EventRow) :
    compute_skip_probability {r with skip_tendency := "low"} ≤
      compute_skip_probability {r with skip_tendency := "medium"} ∧
    compute_skip_probability {r with skip_tendency := "medium"} ≤
      compute_skip_probability {r with skip_tendency := "high"} := by
  constructor
  · apply clamp01_mono
    rw [skipProbRaw_medium]
    linarith
  · apply clamp01_mono
    rw [skipProbRaw_medium, skipProbRaw_high]
    linarith

/-- C8: when every positive adjustment fires and no negative adjustment
fires, the raw sum is 1.03 and the clamp returns exactly 1. -/
theorem skip_prob_all_positive_clamps_to_one (r : EventRow)
    (h1 : r.skip_tendency = "high")
    (h2 : r.age_group = "13-17" ∨ r.age_group = "18-24")
    (h3 : r.subscription = "free")
    (h4 : r.country = "LATAM")
    (h5 : r.location = "gym")
    (h6 : r.day_type = "weekend")
    (h7 : r.genre = "classical" ∨ r.genre = "jazz")
    (h8 : r.energy < 3/10)
    (h9 : r.time_of_day ≠ "morning")
    (h10 : ¬ (7/10 < r.danceability)) :
    skipProbRaw r = 103/100 ∧ compute_skip_probability r = 1 := by
  have ht : tendencyDelta r = 25/100 := by simp [tendencyDelta, h1]
  have ha : ageDelta r = 5/100 := by
    rcases h2 with h | h <;> simp [ageDelta, h]
  have hs : subDelta r = 10/100 := by simp [subDelta, h3]
  have hl : latamDelta r = 8/100 := by simp [latamDelta, h4]
  have he : euDelta r = 0 := by simp [euDelta, h4]
  have hm : morningDelta r = 0 := by simp [morningDelta, h9]
  have hg : gymDelta r = 10/100 := by simp [gymDelta, h5]
  have hw : weekendDelta r = 5/100 := by simp [weekendDelta, h6]
  have hgn : genreNegDelta r = 0 := by
    rcases h7 with h | h <;> simp [genreNegDelta, h]
  have hgp : genrePosDelta r = 10/100 := by
    rcases h7 with h | h <;> simp [genrePosDelta, h]
  have hen : energyDelta r = 5/100 := by simp [energyDelta, h8]
  have hd : danceDelta r = 0 := by simp [danceDelta, h10]
  have hraw : skipProbRaw r = 103/100 := by
    simp [skipProbRaw, ht, ha, hs, hl, he, hm, hg, hw, hgn, hgp, hen, hd]
    norm_num
  refine ⟨hraw, ?_⟩
  rw [compute_skip_probability, hraw]
  norm_num

/-- Witness for C8 at a concrete all-positive row. -/
theorem skip_prob_all_positive_clamps_to_one_witness :
    skipProbRaw ⟨"high", "13-17", "free", "LATAM", "afternoon", "gym",
        "weekend", "classical", 1/10, 1/2⟩ = 103/100 ∧
    compute_skip_probability ⟨"high", "13-17", "free", "LATAM", "afternoon",
        "gym", "weekend", "classical", 1/10, 1/2⟩ = 1 :=
  skip_prob_all_positive_clamps_to_one _ rfl (Or.inl rfl) rfl rfl rfl rfl
    (Or.inl rfl) (by norm_num) (by decide) (by norm_num)

/-- C10: the raw additive sum is always at least 0.05 (baseline 0.25 minus at
most four 0.05-subtractions), so the computed skip probability is at least
0.05 and in particular never 0: the lower clamp bound is unreachable. -/
theorem skip_prob_never_zero (r : EventRow) :
    1/20 ≤ skipProbRaw r ∧ 1/20 ≤ compute_skip_probability r ∧
      compute_skip_probability r ≠ 0 := by
  have ht : 0 ≤ tendencyDelta r := by unfold tendencyDelta; split_ifs <;> norm_num
  have ha : 0 ≤ ageDelta r := by unfold ageDelta; split_ifs <;> norm_num
  have hs : 0 ≤ subDelta r := by unfold subDelta; split_ifs <;> norm_num
  have hl : 0 ≤ latamDelta r := by unfold latamDelta; split_ifs <;> norm_num
  have he : -(5/100) ≤ euDelta r := by unfold euDelta; split_ifs <;> norm_num
  have hm : -(5/100) ≤ morningDelta r := by
    unfold morningDelta; split_ifs <;> norm_num
  have hg : 0 ≤ gymDelta r := by unfold gymDelta; split_ifs <;> norm_num
  have hw : 0 ≤ weekendDelta r := by unfold weekendDelta; split_ifs <;> norm_num
  have hgn : -(5/100) ≤ genreNegDelta r := by
    unfold genreNegDelta; split_ifs <;> norm_num
  have hgp : 0 ≤ genrePosDelta r := by unfold genrePosDelta; split_ifs <;> norm_num
  have hen : 0 ≤ energyDelta r := by unfold energyDelta; split_ifs <;> norm_num
  have hd : -(5/100) ≤ danceDelta r := by unfold danceDelta; split_ifs <;> norm_num
  have hraw : 1/20 ≤ skipProbRaw r := by unfold skipProbRaw; linarith
  have hc : 1/20 ≤ compute_skip_probability r := by
    unfold compute_skip_probability
    exact le_trans (le_min (by norm_num) hraw) (le_max_right 0 _)
  refine ⟨hraw, hc, fun h => ?_⟩
  rw [h] at hc
  norm_num at hc

/-- One row of the Sessions table. -/
structure SessionRow where
  session_id : ℕ
  user_id : ℕ
  time_of_day : String
  day_type : String
  location : String
  session_length : ℕ
deriving Repr, DecidableEq

/-- One row of the pre-enrichment Events table. -/
structure EventBase where
  session_id : ℕ
  user_id : ℕ
  position : ℕ
  time_of_day : String
  day_type : String
  location : String
deriving Repr, DecidableEq

/-- The events one session expands into: `for pos in range(n_events)` appends
one row per `pos` with `position = pos + 1` and the session's own fields
copied across. -/
def sessionEvents (s : SessionRow) : List EventBase :=
  (List.range s.session_length).map (fun pos =>
    { session_id := s.session_id, user_id := s.user_id, position := pos + 1,
      time_of_day := s.time_of_day, day_type := s.day_type,
      location := s.location })

/-- Models `expand_sessions_to_events`: iterate over the session rows in order and
append each session's events. -/
def expand_sessions_to_events (sessions : List SessionRow) : List EventBase :=
  sessions.flatMap sessionEvents

/-- C3: each session expands into exactly `session_length` events, whose
positions are exactly 1..session_length in order, all carrying the session's
identifying and categorical fields unchanged; and the total number of events
is the sum of the session lengths. -/
theorem expand_sessions_to_events_contract
    (sessions : List SessionRow) (s : SessionRow) (hs : s ∈ sessions) :
    (sessionEvents s).length = s.session_length ∧
    (sessionEvents s).map (fun e => e.position) =
      (List.range s.session_length).map (· + 1) ∧
    (∀ e ∈ sessionEvents s, e.session_id = s.session_id ∧
      e.user_id = s.user_id ∧ e.time_of_day = s.time_of_day ∧
      e.day_type = s.day_type ∧ e.location = s.location) ∧
    (expand_sessions_to_events sessions).length =
      (sessions.map (fun t => t.session_length)).sum := by
  refine ⟨by simp [sessionEvents], ?_, ?_, ?_⟩
  · simp [sessionEvents, List.map_map]
  · intro e he
    simp only [sessionEvents, List.mem_map, List.mem_range] at he
    obtain ⟨pos, _, rfl⟩ := he
    exact ⟨rfl, rfl, rfl, rfl, rfl⟩
  · have h : (List.length ∘ sessionEvents) =
        fun t : SessionRow => t.session_length := by
      funext t
      simp [sessionEvents]
    rw [expand_sessions_to_events, List.length_flatMap, h]

/-- Witness for C3 on a concrete one-session table. -/
theorem expand_sessions_to_events_contract_witness :
    (⟨1, 2, "morning", "weekday", "home", 3⟩ : SessionRow) ∈
      [(⟨1, 2, "morning", "weekday", "home", 3⟩ : SessionRow)] ∧
    ((sessionEvents ⟨1, 2, "morning", "weekday", "home", 3⟩).length = 3 ∧
      (sessionEvents ⟨1, 2, "morning", "weekday", "home", 3⟩).map
          (fun e => e.position) = (List.range 3).map (· + 1) ∧
      (∀ e ∈ sessionEvents ⟨1, 2, "morning", "weekday", "home", 3⟩,
        e.session_id = 1 ∧ e.user_id = 2 ∧ e.time_of_day = "morning" ∧
        e.day_type = "weekday" ∧ e.location = "home") ∧
      (expand_sessions_to_events
          [⟨1, 2, "morning", "weekday", "home", 3⟩]).length =
        ([(⟨1, 2, "morning", "weekday", "home", 3⟩ : SessionRow)].map
          (fun t => t.session_length)).sum) :=
  ⟨List.mem_singleton.mpr rfl,
    expand_sessions_to_events_contract _ _ (List.mem_singleton.mpr rfl)⟩

/-- The single seeded generator `RNG = np.random.default_rng(seed=42)`,
abstracted as the deterministic stream of raw draws it yields: `next k` is
the `k`-th raw draw.  The stream is a pure function of the seed, so fixing
the seed fixes `next`; every derived draw below consumes exactly one raw
draw at an explicit offset, modelling the single sequential consumption
order of the source. -/
structure RandomSource where
  next : ℕ → ℕ

/-- Resolution used to model `RNG.random()` draws in [0,1). -/
def unitDenom : ℕ := 1000000

/-- One element of a `RNG.choice(symbols, size=n, p=...)` column: the draw at
offset `k + i` selects some element of `symbols`. -/
def colChoice (symbols : List String) (src : RandomSource) (k i : ℕ) : String :=
  symbols.getD (src.next (k + i) % symbols.length) ""

/-- One element of a `RNG.integers(lo, hi)` column (upper bound exclusive). -/
def colInt (lo hi : ℕ) (src : RandomSource) (k i : ℕ) : ℕ :=
  lo + src.next (k + i) % (hi - lo)

/-- One element of a `RNG.random(size=n)` column: a rational in [0,1). -/
def colUnit (src : RandomSource) (k i : ℕ) : ℚ :=
  (src.next (k + i) % unitDenom : ℚ) / unitDenom

/-- A `colChoice` value is always one of the declared symbols. -/
theorem colChoice_mem (symbols : List String) (src : RandomSource) (k i : ℕ)
    (h : symbols ≠ []) : colChoice symbols src k i ∈ symbols := by
  unfold colChoice
  have hlt : src.next (k + i) % symbols.length < symbols.length :=
    Nat.mod_lt _ (List.length_pos.mpr h)
  rw [List.getD_eq_getElem _ _ hlt]
  exact List.getElem_mem hlt

def AGE_GROUPS : List String := ["13-17", "18-24", "25-34", "35-44", "45+"]
def GENDERS : List String := ["female", "male", "non_binary"]
def COUNTRIES : List String := ["NA", "EU_UK", "LATAM", "ASIA", "AFRICA"]
def SUB_TYPES : List String := ["free", "premium", "family", "student"]
def PLATFORMS : List String := ["ios", "android", "desktop", "web"]
def SKIP_TENDENCY : List String := ["low", "medium", "high"]
def TIME_OF_DAY : List String := ["morning", "afternoon", "evening", "night"]
def DAY_TYPE : List String := ["weekday", "weekend"]
def LOCATIONS : List String := ["home", "commute", "work", "gym"]
def GENRES : List String :=
  ["pop", "hiphop", "electronic", "rock", "latin", "classical", "indie", "jazz"]

/-- One row of the Users table. -/
structure UserRow where
  user_id : ℕ
  age_group : String
  gender : String
  country : String
  subscription : String
  platform : String
  skip_tendency : String
deriving Repr, DecidableEq

/-- Models `generate_users(n_users)`: `user_id = np.arange(1, n + 1)` and six
categorical columns, each drawn column-wise from the shared source starting
at offset `k` (the age column consumes draws `k..k+n-1`, the gender column
the next `n` draws, and so on). -/
def generate_users (n : ℕ) (src : RandomSource) (k : ℕ) : List UserRow :=
  (List.range n).map (fun i =>
    { user_id := i + 1,
      age_group := colChoice AGE_GROUPS src k i,
      gender := colChoice GENDERS src (k + n) i,
      country := colChoice COUNTRIES src (k + 2 * n) i,
      subscription := colChoice SUB_TYPES src (k + 3 * n) i,
      platform := colChoice PLATFORMS src (k + 4 * n) i,
      skip_tendency := colChoice SKIP_TENDENCY src (k + 5 * n) i })

/-- C9: for every positive `n` (and any state of the random source),
`generate_users` returns exactly `n` rows, `user_id` is the dense sequence
1..n, and every categorical column's value lies in its declared symbol set. -/
theorem generate_users_contract (n : ℕ) (src : RandomSource) (k : ℕ)
    (hn : 0 < n) :
    (generate_users n src k).length = n ∧
    (generate_users n src k).map (fun u => u.user_id) =
      (List.range n).map (· + 1) ∧
    ∀ u ∈ generate_users n src k,
      u.age_group ∈ AGE_GROUPS ∧ u.gender ∈ GENDERS ∧
      u.country ∈ COUNTRIES ∧ u.subscription ∈ SUB_TYPES ∧
      u.platform ∈ PLATFORMS ∧ u.skip_tendency ∈ SKIP_TENDENCY := by
  refine ⟨by simp [generate_users], by simp [generate_users, List.map_map], ?_⟩
  intro u hu
  simp only [generate_users, List.mem_map, List.mem_range] at hu
  obtain ⟨i, _, rfl⟩ := hu
  exact ⟨colChoice_mem _ _ _ _ (by simp [AGE_GROUPS]),
    colChoice_mem _ _ _ _ (by simp [GENDERS]),
    colChoice_mem _ _ _ _ (by simp [COUNTRIES]),
    colChoice_mem _ _ _ _ (by simp [SUB_TYPES]),
    colChoice_mem _ _ _ _ (by simp [PLATFORMS]),
    colChoice_mem _ _ _ _ (by simp [SKIP_TENDENCY])⟩

/-- Witness for C9 at `n = 3` with a concrete source. -/
theorem generate_users_contract_witness :
    0 < 3 ∧
    ((generate_users 3 ⟨fun j => j⟩ 0).length = 3 ∧
      (generate_users 3 ⟨fun j => j⟩ 0).map (fun u => u.user_id) =
        (List.range 3).map (· + 1) ∧
      ∀ u ∈ generate_users 3 ⟨fun j => j⟩ 0,
        u.age_group ∈ AGE_GROUPS ∧ u.gender ∈ GENDERS ∧
        u.country ∈ COUNTRIES ∧ u.subscription ∈ SUB_TYPES ∧
        u.platform ∈ PLATFORMS ∧ u.skip_tendency ∈ SKIP_TENDENCY) :=
  ⟨by decide, generate_users_contract 3 ⟨fun j => j⟩ 0 (by decide)⟩

/-- One row of the Tracks table. -/
structure TrackRow where
  track_id : ℕ
  genre : String
  popularity : ℕ
  acousticness : ℚ
  danceability : ℚ
  energy : ℚ
  tempo : ℕ
  duration_sec : ℕ
deriving Repr, DecidableEq

/-- Models `generate_tracks(n_tracks)`: `track_id = np.arange(1, n + 1)` plus seven
columns drawn column-wise from the shared source starting at offset `k`. -/
def generate_tracks (n : ℕ) (src : RandomSource) (k : ℕ) : List TrackRow :=
  (List.range n).map (fun i =>
    { track_id := i + 1,
      genre := colChoice GENRES src k i,
      popularity := colInt 0 101 src (k + n) i,
      acousticness := colUnit src (k + 2 * n) i,
      danceability := colUnit src (k + 3 * n) i,
      energy := colUnit src (k + 4 * n) i,
      tempo := colInt 60 181 src (k + 5 * n) i,
      duration_sec := colInt 120 360 src (k + 6 * n) i })

/-- Models `generate_sessions(n_sessions)`: `session_id = np.arange(1, n + 1)`,
`user_id = RNG.integers(1, N_USERS + 1)`, three categorical columns and
`session_length = RNG.integers(5, 40)`. -/
def generate_sessions (n nUsers : ℕ) (src : RandomSource) (k : ℕ) :
    List SessionRow :=
  (List.range n).map (fun i =>
    { session_id := i + 1,
      user_id := colInt 1 (nUsers + 1) src k i,
      time_of_day := colChoice TIME_OF_DAY src (k + n) i,
      day_type := colChoice DAY_TYPE src (k + 2 * n) i,
      location := colChoice LOCATIONS src (k + 3 * n) i,
      session_length := colInt 5 40 src (k + 4 * n) i })

/-- An event row after `assign_tracks` added the `track_id` column. -/
structure EventAssigned where
  session_id : ℕ
  user_id : ℕ
  position : ℕ
  time_of_day : String
  day_type : String
  location : String
  track_id : ℕ
deriving Repr, DecidableEq

/-- Models `assign_tracks`: one `RNG.integers(1, N_TRACKS + 1)` draw per event row,
in row order. -/
def assign_tracks (events : List EventBase) (nTracks : ℕ)
    (src : RandomSource) (k : ℕ) : List EventAssigned :=
  events.enum.map (fun ie =>
    { session_id := ie.2.session_id, user_id := ie.2.user_id,
      position := ie.2.position, time_of_day := ie.2.time_of_day,
      day_type := ie.2.day_type, location := ie.2.location,
      track_id := colInt 1 (nTracks + 1) src k ie.1 })

/-- An event row after the `events_df.merge(users_df, on="user_id",
how="left")` join.  The user attributes are `Option`-valued: a left join
fills them with NaN/None when no user row matches. -/
structure EventUserRow where
  session_id : ℕ
  user_id : ℕ
  position : ℕ
  time_of_day : String
  day_type : String
  location : String
  track_id : ℕ
  age_group : Option String
  gender : Option String
  country : Option String
  subscription : Option String
  platform : Option String
  skip_tendency : Option String
deriving Repr, DecidableEq

/-- The null-filled row a left join produces for an event whose `user_id`
matches no user. -/
def nullFilledUser (e : EventAssigned) : EventUserRow :=
  { session_id := e.session_id, user_id := e.user_id, position := e.position,
    time_of_day := e.time_of_day, day_type := e.day_type,
    location := e.location, track_id := e.track_id,
    age_group := none, gender := none, country := none,
    subscription := none, platform := none, skip_tendency := none }

/-- The row the Events→Users left join produces for one event: the matching
user's attributes if `user_id` resolves (user keys are unique in the
generated table, so the first match is the only one), and null-filled
attributes otherwise. -/
def userJoin (users : List UserRow) (e : EventAssigned) : EventUserRow :=
  match users.find? (fun u => u.user_id == e.user_id) with
  | some u =>
    { session_id := e.session_id, user_id := e.user_id,
      position := e.position, time_of_day := e.time_of_day,
      day_type := e.day_type, location := e.location, track_id := e.track_id,
      age_group := some u.age_group, gender := some u.gender,
      country := some u.country, subscription := some u.subscription,
      platform := some u.platform, skip_tendency := some u.skip_tendency }
  | none => nullFilledUser e

/-- Models `events_df.merge(users_df, on="user_id", how="left")`: every event row is
kept, enriched with its user's attributes when the key resolves. -/
def merge_users (events : List EventAssigned) (users : List UserRow) :
    List EventUserRow :=
  events.map (userJoin users)

/-- A fully enriched event row, after the Events→Tracks left join. -/
structure JoinedRow where
  session_id : ℕ
  user_id : ℕ
  position : ℕ
  time_of_day : String
  day_type : String
  location : String
  track_id : ℕ
  age_group : Option String
  gender : Option String
  country : Option String
  subscription : Option String
  platform : Option String
  skip_tendency : Option String
  genre : Option String
  popularity : Option ℕ
  acousticness : Option ℚ
  danceability : Option ℚ
  energy : Option ℚ
  tempo : Option ℕ
  duration_sec : Option ℕ
deriving Repr, DecidableEq

/-- The null-filled row a left join produces for an event whose `track_id`
matches no track. -/
def nullFilledTrack (r : EventUserRow) : JoinedRow :=
  { session_id := r.session_id, user_id := r.user_id, position := r.position,
    time_of_day := r.time_of_day, day_type := r.day_type,
    location := r.location, track_id := r.track_id,
    age_group := r.age_group, gender := r.gender, country := r.country,
    subscription := r.subscription, platform := r.platform,
    skip_tendency := r.skip_tendency,
    genre := none, popularity := none, acousticness := none,
    danceability := none, energy := none, tempo := none,
    duration_sec := none }

/-- The row the Events→Tracks left join produces for one event row. -/
def trackJoin (tracks : List TrackRow) (r : EventUserRow) : JoinedRow :=
  match tracks.find? (fun t => t.track_id == r.track_id) with
  | some t =>
    { session_id := r.session_id, user_id := r.user_id,
      position := r.position, time_of_day := r.time_of_day,
      day_type := r.day_type, location := r.location, track_id := r.track_id,
      age_group := r.age_group, gender := r.gender, country := r.country,
      subscription := r.subscription, platform := r.platform,
      skip_tendency := r.skip_tendency,
      genre := some t.genre, popularity := some t.popularity,
      acousticness := some t.acousticness, danceability := some t.danceability,
      energy := some t.energy, tempo := some t.tempo,
      duration_sec := some t.duration_sec }
  | none => nullFilledTrack r

/-- Models `events_df.merge(tracks_df, on="track_id", how="left")`. -/
def merge_tracks (rows : List EventUserRow) (tracks : List TrackRow) :
    List JoinedRow :=
  rows.map (trackJoin tracks)

/-- A concrete event whose `user_id` (5) matches no user below. -/
def sampleEventUnmatched : EventAssigned :=
  ⟨1, 5, 1, "morning", "weekday", "home", 7⟩

/-- A concrete enriched row whose `track_id` (7) matches no track below. -/
def sampleRowUnmatched : EventUserRow := nullFilledUser sampleEventUnmatched

/-- Counterexample for C4: both joins are plain left merges.  On an event
whose `user_id` matches no user, `merge_users` keeps the row and fills the
user attributes with nulls, and likewise `merge_tracks` for an unresolved
`track_id` — the run continues, it is not aborted with an error. -/
theorem merge_unmatched_keys_null_fill :
    merge_users [sampleEventUnmatched]
        [⟨1, "18-24", "female", "NA", "free", "ios", "low"⟩] =
      [nullFilledUser sampleEventUnmatched] ∧
    merge_tracks [sampleRowUnmatched] [] =
      [nullFilledTrack sampleRowUnmatched] := by
  constructor <;> rfl

/-- C4 (amended): an unmatched key in either left join is silently
null-filled, never dropped and never a failure: the merged table always has
exactly one output row per input row, and an input row whose key does not
resolve appears in the output with `None` in every joined attribute. -/
theorem left_joins_null_fill_and_keep_rows
    (events : List EventAssigned) (users : List UserRow)
    (rows : List EventUserRow) (tracks : List TrackRow)
    (e : EventAssigned) (he : e ∈ events)
    (hu : users.find? (fun u => u.user_id == e.user_id) = none)
    (r : EventUserRow) (hr : r ∈ rows)
    (ht : tracks.find? (fun t => t.track_id == r.track_id) = none) :
    (merge_users events users).length = events.length ∧
    nullFilledUser e ∈ merge_users events users ∧
    (merge_tracks rows tracks).length = rows.length ∧
    nullFilledTrack r ∈ merge_tracks rows tracks := by
  refine ⟨by simp [merge_users], ?_, by simp [merge_tracks], ?_⟩
  · exact List.mem_map.mpr ⟨e, he, by simp [userJoin, hu]⟩
  · exact List.mem_map.mpr ⟨r, hr, by simp [trackJoin, ht]⟩

/-- Witness for the amended C4 at concrete tables. -/
theorem left_joins_null_fill_and_keep_rows_witness :
    sampleEventUnmatched ∈ [sampleEventUnmatched] ∧
    ([] : List UserRow).find?
      (fun u => u.user_id == sampleEventUnmatched.user_id) = none ∧
    sampleRowUnmatched ∈ [sampleRowUnmatched] ∧
    ([] : List TrackRow).find?
      (fun t => t.track_id == sampleRowUnmatched.track_id) = none ∧
    ((merge_users [sampleEventUnmatched] []).length = 1 ∧
      nullFilledUser sampleEventUnmatched ∈ merge_users [sampleEventUnmatched] [] ∧
      (merge_tracks [sampleRowUnmatched] []).length = 1 ∧
      nullFilledTrack sampleRowUnmatched ∈ merge_tracks [sampleRowUnmatched] []) :=
  ⟨List.mem_singleton.mpr rfl, rfl, List.mem_singleton.mpr rfl, rfl,
    left_joins_null_fill_and_keep_rows [sampleEventUnmatched] []
      [sampleRowUnmatched] [] sampleEventUnmatched
      (List.mem_singleton.mpr rfl) rfl sampleRowUnmatched
      (List.mem_singleton.mpr rfl) rfl⟩

/-- NaN-aware equality: a pandas left join fills unmatched fields with NaN,
and in Python `nan == s` is false for every string `s`. -/
def optEqStr (o : Option String) (s : String) : Bool :=
  match o with
  | some x => x == s
  | none => false

/-- NaN-aware membership: `nan in [...]` is false in Python. -/
def optMemStr (o : Option String) (l : List String) : Bool :=
  match o with
  | some x => l.contains x
  | none => false

/-- NaN-aware `<`: any comparison with NaN is false in Python. -/
def optLtQ (o : Option ℚ) (q : ℚ) : Bool :=
  match o with
  | some x => decide (x < q)
  | none => false

/-- NaN-aware `>`. -/
def optGtQ (o : Option ℚ) (q : ℚ) : Bool :=
  match o with
  | some x => decide (q < x)
  | none => false

/-- Models `compute_skip_probability` applied to a joined pipeline row, whose user
and track attributes are `Option`-valued because they come from left joins;
comparisons against a missing value are false, as in Python. -/
def computeSkipProbJoined (m : JoinedRow) : ℚ :=
  max 0 (min 1 (25/100
    + (if optEqStr m.skip_tendency "high" then 25/100
       else if optEqStr m.skip_tendency "medium" then 10/100 else 0)
    + (if optMemStr m.age_group ["13-17", "18-24"] then 5/100 else 0)
    + (if optEqStr m.subscription "free" then 10/100 else 0)
    + (if optEqStr m.country "LATAM" then 8/100 else 0)
    + (if optEqStr m.country "EU_UK" then -(5/100) else 0)
    + (if m.time_of_day == "morning" then -(5/100) else 0)
    + (if m.location == "gym" then 10/100 else 0)
    + (if m.day_type == "weekend" then 5/100 else 0)
    + (if optMemStr m.genre ["pop", "latin"] then -(5/100) else 0)
    + (if optMemStr m.genre ["classical", "jazz"] then 10/100 else 0)
    + (if optLtQ m.energy (3/10) then 5/100 else 0)
    + (if optGtQ m.danceability (7/10) then -(5/100) else 0)))

/-- One row of the final exported table. -/
structure FinalRow where
  row : JoinedRow
  skip_prob : ℚ
  skip : Bool
deriving Repr, DecidableEq

/-- The dimension constants of the script. -/
structure PipelineConfig where
  nUsers : ℕ
  nTracks : ℕ
  nSessions : ℕ
deriving Repr, DecidableEq

def N_USERS : ℕ := 2000
def N_TRACKS : ℕ := 5000
def N_SESSIONS : ℕ := 20000

/-- The whole pipeline of `generate_dataset.py` as a function of the seeded
random source and the dimension constants: generate users, tracks and
sessions (each consuming a contiguous block of draws from the single
sequential source, in the program's call order), expand sessions to events,
assign one uniformly drawn track per event, left-join users and tracks onto
the events, compute the skip probability of every row, and draw one
Bernoulli outcome per row (`RNG.random() < skip_prob`). -/
def runPipeline (src : RandomSource) (c : PipelineConfig) : List FinalRow :=
  let users := generate_users c.nUsers src 0
  let tracks := generate_tracks c.nTracks src (6 * c.nUsers)
  let sessions :=
    generate_sessions c.nSessions c.nUsers src (6 * c.nUsers + 7 * c.nTracks)
  let events := expand_sessions_to_events sessions
  let kAssign := 6 * c.nUsers + 7 * c.nTracks + 5 * c.nSessions
  let assigned := assign_tracks events c.nTracks src kAssign
  let joined := merge_tracks (merge_users assigned users) tracks
  let kOut := kAssign + assigned.length
  joined.enum.map (fun im =>
    { row := im.2,
      skip_prob := computeSkipProbJoined im.2,
      skip := decide (colUnit src kOut im.1 < computeSkipProbJoined im.2) })

/-- C5: the pipeline is a deterministic function of the seeded random source
and the dimension constants.  The raw stream `next` is itself a pure function
of the seed, so two runs with the same seed (42) and the same constants read
identical streams and produce identical output tables, row for row. -/
theorem runPipeline_deterministic (src₁ src₂ : RandomSource)
    (c₁ c₂ : PipelineConfig) (hsrc : src₁ = src₂) (hc : c₁ = c₂) :
    runPipeline src₁ c₁ = runPipeline src₂ c₂ := by
  subst hsrc
  subst hc
  rfl

/-- Witness for C5 with the script's dimension constants. -/
theorem runPipeline_deterministic_witness :
    (⟨fun j => j⟩ : RandomSource) = ⟨fun j => j⟩ ∧
    (⟨N_USERS, N_TRACKS, N_SESSIONS⟩ : PipelineConfig) =
      ⟨N_USERS, N_TRACKS, N_SESSIONS⟩ ∧
    runPipeline ⟨fun j => j⟩ ⟨N_USERS, N_TRACKS, N_SESSIONS⟩ =
      runPipeline ⟨fun j => j⟩ ⟨N_USERS, N_TRACKS, N_SESSIONS⟩ :=
  ⟨rfl, rfl, runPipeline_deterministic _ _ _ _ rfl rfl⟩

/-- Models `SessionDataset.__getitem__`: one session's feature matrix `X` and label
vector `y`, truncated or zero-padded to `max_len`.  `pad_len` is the Python
integer `self.max_len - len(X)` (possibly negative, hence `ℤ`); when it is
positive, `X` gains `pad_len` all-zero feature rows of width `nf` and `y`
gains `pad_len` zero labels; otherwise both are truncated to `max_len`. -/
def getItem (max_len nf : ℕ) (X : List (List ℚ)) (y : List ℕ) :
    List (List ℚ) × List ℕ :=
  let pad_len : ℤ := (max_len : ℤ) - X.length
  if 0 < pad_len then
    (X ++ List.replicate (max_len - X.length) (List.replicate nf 0),
      y ++ List.replicate (max_len - X.length) 0)
  else
    (X.take max_len, y.take max_len)

/-- Models `collate_fn`: stacks the already-padded items of a batch and returns,
alongside them, `len(y)` of each item as its length. -/
def collate_fn (batch : List (List (List ℚ) × List ℕ)) :
    List (List (List ℚ)) × List (List ℕ) × List ℕ :=
  (batch.map (fun b => b.1), batch.map (fun b => b.2),
    batch.map (fun b => b.2.length))

/-- C6: `collate_fn` measures each item's length only after
`SessionDataset.__getitem__` has already padded (or truncated) it to
`max_len`, so for a session of 3 events with `max_len = 50` the exposed
length is 50, not the true pre-padding length 3. -/
theorem collate_fn_reports_padded_length :
    ([0, 1, 0] : List ℕ).length = 3 ∧
    (collate_fn [getItem 50 1 [[1], [2], [3]] [0, 1, 0]]).2.2 = [50] ∧
    (collate_fn [getItem 50 1 [[1], [2], [3]] [0, 1, 0]]).2.2 ≠ [3] := by
  refine ⟨rfl, rfl, fun h => ?_⟩
  have h50 : ([50] : List ℕ) = [3] :=
    Eq.trans (Eq.symm rfl) h
  simp at h50
